import Mathlib

/-!
A shallow embedding of the local note store of `src/app.js` (the `Store`
object, lines 15 to 125) together with theorems about its contract.

Modelling decisions, each matching the JavaScript source:
* The two Dexie collections are lists of records; `toArray` returns the list.
* Every `new Date()` call reads a logical clock kept in the state and
  advances it, so successive wall-clock reads are monotone.  Timestamps are
  naturals (ISO-8601 strings compare like the instants they denote).
* `generateId` concatenates the wall clock with a suffix; the random part is
  abstracted to a fixed tag, since no property here depends on its value.
* A Dexie `update` on a key matching no record is a no-op; `delete` removes
  the records with that key; `where(...).equals(v).delete()` removes the
  records whose field equals `v`; `add`/`bulkAdd` append.
* JavaScript string truthiness: `undefined` and `""` are falsy.
* `Array.prototype.sort` with the comparator
  `(a, b) => new Date(b.updatedAt) - new Date(a.updatedAt)` is a stable sort
  by descending `updatedAt`; the stable sort is modelled by insertion sort,
  which produces the same list as any stable sort for this comparator.
-/

/-- A folder record as persisted in the `folders` collection. -/
structure Folder where
  id : String
  name : String
  createdAt : Nat
  updatedAt : Nat
  deriving Repr, DecidableEq

/-- A memo record as persisted in the `memos` collection.  `folderId`,
`title` and `content` are optional because the store spreads caller input
verbatim and never validates these fields. -/
structure Memo where
  id : String
  folderId : Option String
  title : Option String
  content : Option String
  createdAt : Nat
  updatedAt : Nat
  deriving Repr, DecidableEq

/-- The observable database state: the two Dexie collections, plus the
logical clock read by each `new Date()` (and `Date.now()`) call. -/
structure State where
  folders : List Folder
  memos : List Memo
  clock : Nat
  deriving Repr, DecidableEq

/-- Character-list version of JS `String.prototype.startsWith`. -/
def charsStartsWith : List Char → List Char → Bool
  | [], _ => true
  | _ :: _, [] => false
  | a :: as, b :: bs => a == b && charsStartsWith as bs

/-- Occurrence of `needle` somewhere in the second list. -/
def charsContains (needle : List Char) : List Char → Bool
  | [] => charsStartsWith needle []
  | b :: bs => charsStartsWith needle (b :: bs) || charsContains needle bs

/-- JS `s.includes(q)`: the empty needle is contained in every string. -/
def jsIncludes (s q : String) : Bool :=
  charsContains q.data s.data

/-- JS `s.toLowerCase()`, modelled character-wise. -/
def jsToLower (s : String) : String :=
  ⟨s.data.map Char.toLower⟩

/-- JS truthiness of a possibly-absent string: `undefined` and `""` are
falsy, any other string is truthy. -/
def jsTruthy : Option String → Bool
  | some s => !(s == "")
  | none => false

/-- The JS sort comparator of `searchMemos` and `getMemosByFolder`:
`a` precedes `b` when its `updatedAt` is the larger (descending order). -/
def updatedDesc (a b : Memo) : Prop := b.updatedAt ≤ a.updatedAt

instance : DecidableRel updatedDesc := fun a b => Nat.decLe b.updatedAt a.updatedAt

instance : IsTotal Memo updatedDesc := ⟨fun a b => Nat.le_total b.updatedAt a.updatedAt⟩

instance : IsTrans Memo updatedDesc := ⟨fun _ _ _ hab hbc => Nat.le_trans hbc hab⟩

namespace Store

/-- The id generator: `Date.now().toString() + an underscore + a random
suffix`; the wall clock is the logical clock and the random suffix is a
fixed tag. -/
def generateId (now : Nat) : String := toString now ++ "_r"

/-- JS `getFolders()`: `db.folders.toArray()`. -/
def getFolders (s : State) : List Folder := s.folders

/-- JS `getMemos()`: `db.memos.toArray()`. -/
def getMemos (s : State) : List Memo := s.memos

/-- JS `addFolder(name)`: one wall-clock read stamps both timestamps, the
record is inserted and returned. -/
def addFolder (s : State) (name : String) : State × Folder :=
  let now := s.clock
  let folder : Folder :=
    { id := generateId now, name := name, createdAt := now, updatedAt := now }
  ({ s with clock := s.clock + 1, folders := s.folders ++ [folder] }, folder)

/-- JS `updateFolderTimestamp(folderId)`: a Dexie update of `updatedAt` on
the folder key; a key matching no record (including an absent one) updates
nothing. -/
def updateFolderTimestamp (s : State) (folderId : Option String) : State :=
  { s with
    clock := s.clock + 1,
    folders := s.folders.map fun f =>
      if some f.id == folderId then { f with updatedAt := s.clock } else f }

/-- The first await of JS `deleteFolder(folderId)`:
`db.folders.delete(folderId)`. -/
def deleteFolderStep1 (s : State) (folderId : String) : State :=
  { s with folders := s.folders.filter fun f => !(f.id == folderId) }

/-- The second await of JS `deleteFolder(folderId)`: delete every memo whose
`folderId` equals the given id. -/
def deleteFolderStep2 (s : State) (folderId : String) : State :=
  { s with memos := s.memos.filter fun m => !(m.folderId == some folderId) }

/-- JS `deleteFolder(folderId)`: the folder record is deleted first, then
the memos of that folder. -/
def deleteFolder (s : State) (folderId : String) : State :=
  deleteFolderStep2 (deleteFolderStep1 s folderId) folderId

/-- Caller input object of `addMemo`; every field may be present or absent,
because the object is spread verbatim into the new record. -/
structure MemoInput where
  id : Option String := none
  folderId : Option String := none
  title : Option String := none
  content : Option String := none
  createdAt : Option Nat := none
  updatedAt : Option Nat := none
  deriving Repr, DecidableEq

/-- JS `addMemo(memo)`: the new record is built as
`id: generateId(), ...memo, createdAt: now, updatedAt: now` — the spread
overrides the generated id whenever the caller supplied one, while the
trailing `createdAt`/`updatedAt` override anything spread in.  The record is
inserted and the folder named by the input is touched. -/
def addMemo (s : State) (memo : MemoInput) : State × Memo :=
  let now := s.clock
  let newMemo : Memo :=
    { id := memo.id.getD (generateId now)
      folderId := memo.folderId
      title := memo.title
      content := memo.content
      createdAt := now
      updatedAt := now }
  let s1 : State := { s with clock := s.clock + 1, memos := s.memos ++ [newMemo] }
  (updateFolderTimestamp s1 memo.folderId, newMemo)

/-- Caller field set of `updateMemo`; an absent field is left unchanged by
the Dexie update. -/
structure MemoUpdates where
  folderId : Option String := none
  title : Option String := none
  content : Option String := none
  createdAt : Option Nat := none
  updatedAt : Option Nat := none
  deriving Repr, DecidableEq

/-- The record produced by applying `updateData = ...updates, updatedAt: now`
to a matching memo: every supplied field is written (a supplied `createdAt`
included), and `updatedAt` is the wall clock regardless of caller input. -/
def applyUpdates (u : MemoUpdates) (now : Nat) (m : Memo) : Memo :=
  { m with
    folderId := match u.folderId with | some v => some v | none => m.folderId
    title := match u.title with | some v => some v | none => m.title
    content := match u.content with | some v => some v | none => m.content
    createdAt := u.createdAt.getD m.createdAt
    updatedAt := now }

/-- JS `updateMemo(id, updates)`: update the matching memo (a missing id
updates nothing), touch the folder named in `updates.folderId` when that
value is truthy, and return `db.memos.get(id)`. -/
def updateMemo (s : State) (id : String) (u : MemoUpdates) : State × Option Memo :=
  let now := s.clock
  let s1 : State :=
    { s with
      clock := s.clock + 1,
      memos := s.memos.map fun m => if m.id == id then applyUpdates u now m else m }
  let s2 := if jsTruthy u.folderId then updateFolderTimestamp s1 u.folderId else s1
  (s2, s2.memos.find? fun m => m.id == id)

/-- JS `deleteMemo(id)`. -/
def deleteMemo (s : State) (id : String) : State :=
  { s with memos := s.memos.filter fun m => !(m.id == id) }

/-- One side of the `searchMemos` filter:
`m.title && m.title.toLowerCase().includes(q)` with `q` already lowercased. -/
def fieldMatches (field : Option String) (q : String) : Bool :=
  match field with
  | some t => !(t == "") && jsIncludes (jsToLower t) q
  | none => false

/-- The filter body of `searchMemos`: title or content matches. -/
def memoMatches (q : String) (m : Memo) : Bool :=
  fieldMatches m.title q || fieldMatches m.content q

/-- JS `searchMemos(query)`: lowercase the query, filter every memo on title
or content, sort the hits by `updatedAt` descending. -/
def searchMemos (s : State) (query : String) : List Memo :=
  let q := jsToLower query
  (s.memos.filter fun m => memoMatches q m).insertionSort updatedDesc

/-- JS `getMemosByFolder(folderId)`: the memos of one folder, sorted by
`updatedAt` descending. -/
def getMemosByFolder (s : State) (folderId : String) : List Memo :=
  (s.memos.filter fun m => m.folderId == some folderId).insertionSort updatedDesc

/-- The JSON document produced by `exportAllData`. -/
structure ExportDoc where
  folders : List Folder
  memos : List Memo
  exportedAt : Nat
  deriving Repr, DecidableEq

/-- JS `exportAllData()`: read both collections, stamp `exportedAt`; the
only state change is the wall-clock read. -/
def exportAllData (s : State) : State × ExportDoc :=
  ({ s with clock := s.clock + 1 },
   { folders := getFolders s, memos := getMemos s, exportedAt := s.clock })

/-- JS `importData(data)`: clear both collections, then `bulkAdd` each
provided list when it is non-empty (a `null` list behaves like an empty
one, so both are passed as the empty list). -/
def importData (s : State) (folders : List Folder) (memos : List Memo) : State :=
  let s1 : State := { s with folders := [], memos := [] }
  let s2 := if folders.length > 0 then { s1 with folders := s1.folders ++ folders } else s1
  if memos.length > 0 then { s2 with memos := s2.memos ++ memos } else s2

/-- JS `clearAllData()`. -/
def clearAllData (s : State) : State :=
  { s with folders := [], memos := [] }

end Store

/-- Spec-side search predicate, written from the words of the specification:
the query occurs case-insensitively in the title or in the content, a
missing field behaving as the empty string (which never contains a
non-empty query).  Compared against the filter of `Store.searchMemos`. -/
def specMatches (q : String) (m : Memo) : Bool :=
  jsIncludes (jsToLower (m.title.getD "")) (jsToLower q) ||
  jsIncludes (jsToLower (m.content.getD "")) (jsToLower q)

/-! Concrete records used by witnesses and counterexamples. -/

def fC5 : Folder := { id := "f1", name := "w", createdAt := 0, updatedAt := 0 }

def mC5 : Memo :=
  { id := "m1", folderId := some "f1", title := none, content := some "x",
    createdAt := 0, updatedAt := 0 }

def csC5 : State := { folders := [fC5], memos := [mC5], clock := 5 }

def uC5 : Store.MemoUpdates := { content := some "y" }

def fW1 : Folder := { id := "f1", name := "a", createdAt := 0, updatedAt := 0 }

def gW1 : Folder := { id := "f2", name := "b", createdAt := 0, updatedAt := 0 }

def mW1a : Memo :=
  { id := "m1", folderId := some "f1", title := some "t1", content := none,
    createdAt := 0, updatedAt := 1 }

def mW1b : Memo :=
  { id := "m2", folderId := some "f1", title := none, content := some "c2",
    createdAt := 0, updatedAt := 2 }

def mW1c : Memo :=
  { id := "m3", folderId := some "f2", title := some "t3", content := none,
    createdAt := 0, updatedAt := 3 }

def csW1 : State := { folders := [fW1, gW1], memos := [mW1a, mW1b, mW1c], clock := 4 }

def mC3 : Memo :=
  { id := "m1", folderId := some "f1", title := some "A", content := none,
    createdAt := 0, updatedAt := 0 }

def csC3 : State := { folders := [], memos := [mC3], clock := 1 }

def mW3 : Memo :=
  { id := "m1", folderId := some "f1", title := some "A", content := none,
    createdAt := 0, updatedAt := 0 }

def csW3 : State := { folders := [], memos := [mW3], clock := 1 }

def mW4a : Memo :=
  { id := "m1", folderId := some "f1", title := some "Alpha", content := none,
    createdAt := 0, updatedAt := 1 }

def mW4b : Memo :=
  { id := "m2", folderId := some "f1", title := none, content := some "beta",
    createdAt := 0, updatedAt := 3 }

def mW4c : Memo :=
  { id := "m3", folderId := some "f1", title := some "malt", content := none,
    createdAt := 0, updatedAt := 2 }

def csW4 : State := { folders := [], memos := [mW4a, mW4b, mW4c], clock := 4 }

def fW5 : Folder := { id := "f2", name := "n", createdAt := 0, updatedAt := 0 }

def csW5 : State := { folders := [fW5], memos := [], clock := 7 }

def uW5 : Store.MemoUpdates := { folderId := some "f2" }

def inpW5 : Store.MemoInput := { folderId := some "f2" }

def mW6 : Memo :=
  { id := "m1", folderId := some "f1", title := none, content := none,
    createdAt := 0, updatedAt := 0 }

def csW6 : State := { folders := [], memos := [mW6], clock := 4 }

def uW6 : Store.MemoUpdates := { title := some "t" }

def fC7 : Folder := { id := "f1", name := "w", createdAt := 0, updatedAt := 0 }

def mC7 : Memo :=
  { id := "m1", folderId := some "f1", title := some "t", content := none,
    createdAt := 0, updatedAt := 0 }

def csC7 : State := { folders := [fC7], memos := [mC7], clock := 3 }

def fW7 : Folder := { id := "f1", name := "w", createdAt := 0, updatedAt := 0 }

def mW7 : Memo :=
  { id := "m1", folderId := some "f1", title := some "t", content := none,
    createdAt := 0, updatedAt := 0 }

def csW7 : State := { folders := [fW7], memos := [mW7], clock := 3 }

def mC9 : Memo :=
  { id := "m1", folderId := some "f1", title := none, content := none,
    createdAt := 0, updatedAt := 0 }

def csC9 : State := { folders := [], memos := [mC9], clock := 5 }

def uC9 : Store.MemoUpdates := { createdAt := some 999 }

def inpW10 : Store.MemoInput := { id := some "cap", folderId := some "f1" }

def csW10 : State := { folders := [], memos := [], clock := 2 }

/-! Helper lemmas about the JS string model. -/

theorem charsContains_nil_needle (hay : List Char) : charsContains [] hay = true := by
  cases hay <;> rfl

theorem jsIncludes_empty_needle (s : String) : jsIncludes s "" = true :=
  charsContains_nil_needle s.data

theorem jsToLower_empty : jsToLower "" = "" := rfl

theorem charsContains_nil_hay {needle : List Char} (h : needle ≠ []) :
    charsContains needle [] = false := by
  cases needle with
  | nil => exact absurd rfl h
  | cons a as => rfl

theorem data_ne_nil {q : String} (h : q ≠ "") : q.data ≠ [] := by
  intro hd
  apply h
  cases q
  simp_all

theorem jsToLower_data_ne_nil {q : String} (h : q ≠ "") : (jsToLower q).data ≠ [] := by
  show q.data.map Char.toLower ≠ []
  simp [data_ne_nil h]

theorem jsIncludes_empty_hay (s q : String) (hs : s.data = []) (hq : q.data ≠ []) :
    jsIncludes s q = false := by
  unfold jsIncludes
  rw [hs]
  exact charsContains_nil_hay hq

/-- The filter of `Store.searchMemos` agrees field-wise with the spec-side
reading as soon as the query is non-empty. -/
theorem fieldMatches_eq_spec (o : Option String) (q : String) (h : q.data ≠ []) :
    Store.fieldMatches o q = jsIncludes (jsToLower (o.getD "")) q := by
  match o with
  | none =>
      show false = jsIncludes (jsToLower "") q
      rw [jsIncludes_empty_hay (jsToLower "") q rfl h]
  | some t =>
      by_cases ht : t = ""
      · subst ht
        show (!("" == "") && jsIncludes (jsToLower "") q) = jsIncludes (jsToLower "") q
        rw [jsIncludes_empty_hay (jsToLower "") q rfl h]
        rfl
      · show (!(t == "") && jsIncludes (jsToLower t) q) = jsIncludes (jsToLower t) q
        have hb : (t == "") = false := by simp [ht]
        rw [hb]
        simp

theorem memoMatches_eq_spec {q : String} (h : q ≠ "") (m : Memo) :
    Store.memoMatches (jsToLower q) m = specMatches q m := by
  have hd := jsToLower_data_ne_nil h
  unfold Store.memoMatches specMatches
  rw [fieldMatches_eq_spec m.title _ hd, fieldMatches_eq_spec m.content _ hd]

/-- On the empty query, the filter of `Store.searchMemos` degenerates to JS
truthiness of the fields: every memo with a non-empty title or content
matches. -/
theorem fieldMatches_empty (o : Option String) :
    Store.fieldMatches o (jsToLower "") = jsTruthy o := by
  cases o with
  | none => rfl
  | some t =>
      show (!(t == "") && jsIncludes (jsToLower t) (jsToLower "")) = !(t == "")
      rw [jsToLower_empty, jsIncludes_empty_needle]
      simp

theorem memoMatches_empty (m : Memo) :
    Store.memoMatches (jsToLower "") m = (jsTruthy m.title || jsTruthy m.content) := by
  unfold Store.memoMatches
  rw [fieldMatches_empty, fieldMatches_empty]

/-! Helper lemmas about the store operations. -/

theorem importData_eq (s : State) (fs : List Folder) (ms : List Memo) :
    (Store.importData s fs ms).folders = fs ∧ (Store.importData s fs ms).memos = ms := by
  unfold Store.importData
  cases fs <;> cases ms <;> simp

theorem updateMemo_memos (s : State) (id : String) (u : Store.MemoUpdates) :
    Store.getMemos (Store.updateMemo s id u).1
      = s.memos.map fun m => if m.id == id then Store.applyUpdates u s.clock m else m := by
  unfold Store.updateMemo Store.updateFolderTimestamp Store.getMemos
  cases jsTruthy u.folderId <;> rfl

theorem updateMemo_ret (s : State) (id : String) (u : Store.MemoUpdates) :
    (Store.updateMemo s id u).2
      = (s.memos.map fun m =>
          if m.id == id then Store.applyUpdates u s.clock m else m).find?
            fun m => m.id == id := by
  unfold Store.updateMemo Store.updateFolderTimestamp
  cases jsTruthy u.folderId <;> rfl

theorem updateMemo_folders (s : State) (id : String) (u : Store.MemoUpdates) :
    Store.getFolders (Store.updateMemo s id u).1
      = if jsTruthy u.folderId
        then s.folders.map fun f =>
          if some f.id == u.folderId then { f with updatedAt := s.clock + 1 } else f
        else s.folders := by
  unfold Store.updateMemo Store.updateFolderTimestamp Store.getFolders
  cases jsTruthy u.folderId <;> rfl

theorem addMemo_folders (s : State) (inp : Store.MemoInput) :
    Store.getFolders (Store.addMemo s inp).1
      = s.folders.map fun f =>
          if some f.id == inp.folderId then { f with updatedAt := s.clock + 1 } else f := rfl

theorem addMemo_memos (s : State) (inp : Store.MemoInput) :
    Store.getMemos (Store.addMemo s inp).1
      = Store.getMemos s ++ [(Store.addMemo s inp).2] := rfl

/-! Claim theorems. -/

/-- Claim C1: for every folder id F present in the store, after
`deleteFolder(F)` completes no memo whose `folderId` equals F remains, and F
is absent from the sequence returned by a subsequent folder listing — for
any number of such memos beforehand, since the state is universally
quantified. -/
theorem deleteFolder_cascades (s : State) (F : String)
    (_hF : ∃ f ∈ Store.getFolders s, f.id = F) :
    (∀ m ∈ Store.getMemos (Store.deleteFolder s F), m.folderId ≠ some F) ∧
    (∀ f ∈ Store.getFolders (Store.deleteFolder s F), f.id ≠ F) := by
  constructor
  · intro m hm
    simp only [Store.deleteFolder, Store.deleteFolderStep2, Store.deleteFolderStep1,
      Store.getMemos, List.mem_filter] at hm
    simpa using hm.2
  · intro f hf
    simp only [Store.deleteFolder, Store.deleteFolderStep2, Store.deleteFolderStep1,
      Store.getFolders, List.mem_filter] at hf
    simpa using hf.2

/-- Witness for C1 at a concrete two-folder, three-memo store. -/
theorem deleteFolder_cascades_witness :
    (∃ f ∈ Store.getFolders csW1, f.id = "f1") ∧
    ((∀ m ∈ Store.getMemos (Store.deleteFolder csW1 "f1"), m.folderId ≠ some "f1") ∧
     (∀ f ∈ Store.getFolders (Store.deleteFolder csW1 "f1"), f.id ≠ "f1")) :=
  ⟨by decide, deleteFolder_cascades csW1 "f1" (by decide)⟩

/-- Claim C2: for every store state, exporting and importing the exported
document leaves the dataset identical (same folders, same memos, with all
field values), and the export itself leaves both collections unchanged. -/
theorem exportImport_roundtrip (s : State) :
    (Store.exportAllData s).1.folders = Store.getFolders s ∧
    (Store.exportAllData s).1.memos = Store.getMemos s ∧
    (Store.importData (Store.exportAllData s).1 (Store.exportAllData s).2.folders
        (Store.exportAllData s).2.memos).folders = Store.getFolders s ∧
    (Store.importData (Store.exportAllData s).1 (Store.exportAllData s).2.folders
        (Store.exportAllData s).2.memos).memos = Store.getMemos s :=
  ⟨rfl, rfl, (importData_eq _ _ _).1, (importData_eq _ _ _).2⟩

/-- Counterexample for C3: on a store holding one memo titled "A",
`searchMemos("")` returns that memo rather than the empty sequence, because
the empty query is a substring of every non-empty field. -/
theorem searchMemos_emptyQuery_ce : Store.searchMemos csC3 "" ≠ [] := by decide

/-- Amended C3: `searchMemos` on a term matching no memo returns the empty
sequence, while `searchMemos("")` returns every memo whose title or content
is a non-empty string (sorted by `updatedAt` descending) instead of the
empty sequence. -/
theorem searchMemos_emptyQuery_amended (s : State) (q : String)
    (h : ∀ m ∈ Store.getMemos s, Store.memoMatches (jsToLower q) m = false) :
    Store.searchMemos s q = [] ∧
    Store.searchMemos s "" =
      (s.memos.filter fun m =>
        jsTruthy m.title || jsTruthy m.content).insertionSort updatedDesc := by
  constructor
  · show (s.memos.filter fun m =>
        Store.memoMatches (jsToLower q) m).insertionSort updatedDesc = []
    rw [List.filter_eq_nil_iff.mpr fun m hm => by simp [h m hm]]
    rfl
  · show (s.memos.filter fun m =>
        Store.memoMatches (jsToLower "") m).insertionSort updatedDesc = _
    rw [List.filter_congr fun m _ => memoMatches_empty m]

/-- Witness for the amended C3 on a one-memo store and the term "zz". -/
theorem searchMemos_emptyQuery_amended_witness :
    Store.searchMemos csW3 "zz" = [] ∧
    Store.searchMemos csW3 "" =
      (csW3.memos.filter fun m =>
        jsTruthy m.title || jsTruthy m.content).insertionSort updatedDesc :=
  searchMemos_emptyQuery_amended csW3 "zz" (by decide)

/-- Claim C4: for every non-empty query q, `searchMemos(q)` returns exactly
the memos whose title or content contains q case-insensitively (either field
suffices; missing or empty fields never match), sorted by `updatedAt`
descending. -/
theorem searchMemos_correct (s : State) (q : String) (hq : q ≠ "") :
    (Store.searchMemos s q).Perm (s.memos.filter (specMatches q)) ∧
    List.Sorted updatedDesc (Store.searchMemos s q) := by
  have hfil : (s.memos.filter fun m => Store.memoMatches (jsToLower q) m)
      = s.memos.filter (specMatches q) :=
    List.filter_congr fun m _ => memoMatches_eq_spec hq m
  constructor
  · show ((s.memos.filter fun m =>
        Store.memoMatches (jsToLower q) m).insertionSort updatedDesc).Perm _
    rw [hfil]
    exact List.perm_insertionSort updatedDesc _
  · exact List.sorted_insertionSort updatedDesc _

/-- Witness for C4 at a three-memo store and the query "Al". -/
theorem searchMemos_correct_witness :
    ("Al" : String) ≠ "" ∧
    ((Store.searchMemos csW4 "Al").Perm (csW4.memos.filter (specMatches "Al")) ∧
     List.Sorted updatedDesc (Store.searchMemos csW4 "Al")) :=
  ⟨by decide, searchMemos_correct csW4 "Al" (by decide)⟩

/-- Counterexample for C5: updating only the content of the single memo of
folder f1 leaves every folder record unchanged — the owning folder is not
touched, although a memo inside it was updated (the memo itself did change,
as the returned record shows). -/
theorem updateMemo_foldersUntouched_ce :
    Store.getFolders (Store.updateMemo csC5 "m1" uC5).1 = [fC5] ∧
    (Store.updateMemo csC5 "m1" uC5).2
      = some { mC5 with content := some "y", updatedAt := 5 } := by decide

/-- Amended C5: creating a memo touches the folder named by the input, and
`updateMemo` touches the new folder exactly when `folderId` is among the
supplied fields with a truthy (non-empty) value — leaving every other folder
untouched — while an update without `folderId` touches no folder at all. -/
theorem folderTouch_amended (s : State) (inp : Store.MemoInput) (id fid : String)
    (u : Store.MemoUpdates) :
    (inp.folderId = some fid →
      Store.getFolders (Store.addMemo s inp).1
        = s.folders.map fun f =>
            if f.id = fid then { f with updatedAt := s.clock + 1 } else f) ∧
    (u.folderId = some fid → fid ≠ "" →
      Store.getFolders (Store.updateMemo s id u).1
        = s.folders.map fun f =>
            if f.id = fid then { f with updatedAt := s.clock + 1 } else f) ∧
    (u.folderId = none →
      Store.getFolders (Store.updateMemo s id u).1 = Store.getFolders s) := by
  refine ⟨?_, ?_, ?_⟩
  · intro hin
    rw [addMemo_folders]
    apply List.map_congr_left
    intro f _
    rw [hin]
    by_cases hf : f.id = fid
    · simp [hf]
    · simp [hf]
  · intro hu hfid
    have ht : jsTruthy u.folderId = true := by
      rw [hu]
      simp [jsTruthy, hfid]
    rw [updateMemo_folders, ht, if_pos rfl]
    apply List.map_congr_left
    intro f _
    rw [hu]
    by_cases hf : f.id = fid
    · simp [hf]
    · simp [hf]
  · intro hnone
    rw [updateMemo_folders, hnone]
    simp [jsTruthy]
    rfl

/-- Witness for the amended C5: an update that supplies `folderId = "f2"`
touches folder f2 at the touch time. -/
theorem folderTouch_amended_witness :
    uW5.folderId = some "f2" ∧
    Store.getFolders (Store.updateMemo csW5 "m9" uW5).1
      = csW5.folders.map fun f =>
          if f.id = "f2" then { f with updatedAt := csW5.clock + 1 } else f :=
  ⟨rfl, (folderTouch_amended csW5 inpW5 "m9" "f2" uW5).2.1 rfl (by decide)⟩

/-- Claim C6: for every id absent from the memo collection, `updateMemo`
returns the distinguishable absent result (`none`) and leaves the memo
collection unchanged. -/
theorem updateMemo_notFound (s : State) (id : String) (u : Store.MemoUpdates)
    (h : ∀ m ∈ Store.getMemos s, m.id ≠ id) :
    (Store.updateMemo s id u).2 = none ∧
    Store.getMemos (Store.updateMemo s id u).1 = Store.getMemos s := by
  have hmap : (s.memos.map fun m =>
      if m.id == id then Store.applyUpdates u s.clock m else m) = s.memos := by
    have h1 : (s.memos.map fun m =>
        if m.id == id then Store.applyUpdates u s.clock m else m)
        = s.memos.map fun m => m :=
      List.map_congr_left fun m hm => by simp [h m hm]
    simpa using h1
  have hfind : (s.memos.find? fun m => m.id == id) = none :=
    List.find?_eq_none.mpr fun m hm => by simp [h m hm]
  constructor
  · rw [updateMemo_ret, hmap]
    exact hfind
  · rw [updateMemo_memos, hmap]
    rfl

/-- Witness for C6 at a one-memo store and the missing id "nope". -/
theorem updateMemo_notFound_witness :
    (Store.updateMemo csW6 "nope" uW6).2 = none ∧
    Store.getMemos (Store.updateMemo csW6 "nope" uW6).1 = Store.getMemos csW6 :=
  updateMemo_notFound csW6 "nope" uW6 (by decide)

/-- Counterexample for C7: at the observable intermediate point of
`deleteFolder` — after the first await, which is exactly
`deleteFolderStep1` — the folder is already gone while the memo whose
`folderId` references it is still present. -/
theorem deleteFolder_window_ce :
    (Store.deleteFolderStep1 csC7 "f1").folders = [] ∧
    (Store.deleteFolderStep1 csC7 "f1").memos = [mC7] ∧
    mC7.folderId = some "f1" ∧
    Store.deleteFolder csC7 "f1"
      = Store.deleteFolderStep2 (Store.deleteFolderStep1 csC7 "f1") "f1" := by decide

/-- Amended C7: `deleteFolder` performs the two deletes with the folder
delete first, so whenever the folder holds at least one memo the
intermediate point shows the folder gone and such a memo still present; on
completion no memo of the folder remains. -/
theorem deleteFolder_window_amended (s : State) (F : String)
    (h : ∃ m ∈ Store.getMemos s, m.folderId = some F) :
    Store.deleteFolder s F
      = Store.deleteFolderStep2 (Store.deleteFolderStep1 s F) F ∧
    (∀ f ∈ Store.getFolders (Store.deleteFolderStep1 s F), f.id ≠ F) ∧
    (∃ m ∈ Store.getMemos (Store.deleteFolderStep1 s F), m.folderId = some F) ∧
    (∀ m ∈ Store.getMemos (Store.deleteFolder s F), m.folderId ≠ some F) := by
  refine ⟨rfl, ?_, ?_, ?_⟩
  · intro f hf
    simp only [Store.deleteFolderStep1, Store.getFolders, List.mem_filter] at hf
    simpa using hf.2
  · exact h
  · intro m hm
    simp only [Store.deleteFolder, Store.deleteFolderStep2, Store.deleteFolderStep1,
      Store.getMemos, List.mem_filter] at hm
    simpa using hm.2

/-- Witness for the amended C7 at a one-folder, one-memo store. -/
theorem deleteFolder_window_amended_witness :
    (∃ m ∈ Store.getMemos csW7, m.folderId = some "f1") ∧
    (Store.deleteFolder csW7 "f1"
        = Store.deleteFolderStep2 (Store.deleteFolderStep1 csW7 "f1") "f1" ∧
     (∀ f ∈ Store.getFolders (Store.deleteFolderStep1 csW7 "f1"), f.id ≠ "f1") ∧
     (∃ m ∈ Store.getMemos (Store.deleteFolderStep1 csW7 "f1"), m.folderId = some "f1") ∧
     (∀ m ∈ Store.getMemos (Store.deleteFolder csW7 "f1"), m.folderId ≠ some "f1")) :=
  ⟨by decide, deleteFolder_window_amended csW7 "f1" (by decide)⟩

/-- Claim C8: `importData` is a destructive overwrite — an empty payload
leaves both listings empty whatever the prior state, and any payload is
inserted verbatim with no referential-integrity check between the imported
memos and folders (the resulting collections are exactly the payload
lists). -/
theorem importData_overwrite (s : State) (fs : List Folder) (ms : List Memo) :
    (Store.importData s [] []).folders = [] ∧
    (Store.importData s [] []).memos = [] ∧
    (Store.importData s fs ms).folders = fs ∧
    (Store.importData s fs ms).memos = ms :=
  ⟨(importData_eq s [] []).1, (importData_eq s [] []).2,
   (importData_eq s fs ms).1, (importData_eq s fs ms).2⟩

/-- Counterexample for C9: updating memo m1 with a caller-supplied
`createdAt = 999` persists 999 as the createdAt of the stored record — the
caller value survives instead of being replaced by a store-generated
timestamp (the store clock is 5, the prior stored value was 0). -/
theorem updateMemo_createdAt_ce :
    Store.getMemos (Store.updateMemo csC9 "m1" uC9).1
      = [{ mC9 with createdAt := 999, updatedAt := 5 }] := by decide

/-- Amended C9: `addMemo` stamps both timestamps with the store clock
regardless of caller input, and `updateMemo` stamps `updatedAt` with the
store clock regardless of caller input; but a `createdAt` supplied among the
update fields is persisted verbatim, overwriting the stored value. -/
theorem storeTimestamps_amended (s : State) (inp : Store.MemoInput) (id : String)
    (u : Store.MemoUpdates) (m : Memo) :
    (Store.addMemo s inp).2.createdAt = s.clock ∧
    (Store.addMemo s inp).2.updatedAt = s.clock ∧
    Store.getMemos (Store.addMemo s inp).1
      = Store.getMemos s ++ [(Store.addMemo s inp).2] ∧
    Store.getMemos (Store.updateMemo s id u).1
      = s.memos.map (fun m0 =>
          if m0.id == id then Store.applyUpdates u s.clock m0 else m0) ∧
    (Store.applyUpdates u s.clock m).updatedAt = s.clock ∧
    (Store.applyUpdates u s.clock m).createdAt = u.createdAt.getD m.createdAt :=
  ⟨rfl, rfl, rfl, updateMemo_memos s id u, rfl, rfl⟩

/-- Claim C10: when the `addMemo` input object itself carries an `id`, the
persisted memo keeps that caller-supplied id (the spread follows the
generated id); only when the caller omits `id` does the stored record carry
the store-generated id. -/
theorem addMemo_callerId (s : State) (inp : Store.MemoInput) (cid : String) :
    (inp.id = some cid → (Store.addMemo s inp).2.id = cid) ∧
    (inp.id = none → (Store.addMemo s inp).2.id = Store.generateId s.clock) ∧
    Store.getMemos (Store.addMemo s inp).1
      = Store.getMemos s ++ [(Store.addMemo s inp).2] := by
  refine ⟨?_, ?_, rfl⟩
  · intro h
    show inp.id.getD (Store.generateId s.clock) = cid
    rw [h]
    rfl
  · intro h
    show inp.id.getD (Store.generateId s.clock) = Store.generateId s.clock
    rw [h]
    rfl

/-- Witness for C10: an input carrying id "cap" is persisted under "cap". -/
theorem addMemo_callerId_witness :
    inpW10.id = some "cap" ∧ (Store.addMemo csW10 inpW10).2.id = "cap" :=
  ⟨rfl, (addMemo_callerId csW10 inpW10 "cap").1 rfl⟩
